import Mathlib

/-!
Shallow embedding of the NetNavi battle core (src/scenes/battle_scene.py,
src/combat/chips.py, src/combat/equipment.py, src/enemy_sprites.py).

Modelling conventions:
* Python floats that hold timers, positions and speeds are modelled as `Rat`
  (all arithmetic the battle core performs on them is exact decimal
  arithmetic, so rationals are a faithful carrier).
* Python ints (hp, damage, defense, grid coordinates) are modelled as `Int`.
* Rendering-only state (colors, damage popups, screen shake, sprite
  animation players, slash-effect visuals) and the on_impact hook (always
  None in this repository) are omitted: no modelled operation reads them.
* Randomness (enemy spawns, chip-draw sampling, drop rolls) enters the
  modelled operations as explicit arguments.
* Fallible Python operations (division, positional-call argument binding)
  return `Except String _`, surfacing ZeroDivisionError / TypeError.
-/

/-- Python `p in s` on strings (character-list version): does `pat` occur at
the head of `s`? -/
def clStarts : List Char → List Char → Bool
  | _, [] => true
  | [], _ :: _ => false
  | c :: cs, d :: ds => c == d && clStarts cs ds

/-- Python `p in s` on strings (character-list version): does `pat` occur
anywhere inside `s`? -/
def clHasSub : List Char → List Char → Bool
  | [], pat => clStarts [] pat
  | c :: cs, pat => clStarts (c :: cs) pat || clHasSub cs pat

/-- Python's substring test `pat in s`. -/
def pyIn (pat s : String) : Bool := clHasSub s.data pat.data

/-- Python's `str.lower()` (ASCII case folding, as `Char.toLower`). -/
def strLower (s : String) : String := ⟨s.data.map Char.toLower⟩

/-- Python true division, surfacing ZeroDivisionError. -/
def pyDiv (a b : Rat) : Except String Rat :=
  if b = 0 then Except.error "ZeroDivisionError" else Except.ok (a / b)

/-- Python `int()` applied to a float: truncation toward zero. -/
def pyInt (q : Rat) : Int := if q < 0 then q.ceil else q.floor

/-- Battle grid width (`self.grid_cols = 6`). -/
def gridCols : Int := 6

/-- Battle grid height (`self.grid_rows = 3`). -/
def gridRows : Int := 3

/-- `self.custom_gauge_max = 15.0`. -/
def customGaugeMax : Rat := 15

/-- An untyped Python value, used to model positional argument binding. -/
inductive PyVal where
  | int (n : Int) : PyVal
  | str (s : String) : PyVal
deriving DecidableEq

/-- The `Chip` dataclass of src/combat/chips.py: fields in declaration
order `name, chip_type, power, code, element, range_pattern`; the first
four have no default. -/
structure Chip where
  name : String
  chip_type : String
  power : Int
  code : String
  element : String
  range_pattern : List (Int × Int)
deriving DecidableEq

/-- `Chip.__post_init__`: sword-family chips get a fixed range pattern. -/
def chipPostInit (c : Chip) : Chip :=
  if c.chip_type = "sword" then { c with range_pattern := [(1, 0)] }
  else if c.chip_type = "widesword" then
    { c with range_pattern := [(1, -1), (1, 0), (1, 1)] }
  else if c.chip_type = "longsword" then
    { c with range_pattern := [(1, 0), (2, 0)] }
  else c

/-- A well-formed positional construction `Chip(name, chip_type, power, code)`. -/
def mkChip (n t : String) (p : Int) (cd : String) : Chip :=
  chipPostInit { name := n, chip_type := t, power := p, code := cd, element := "null", range_pattern := [] }

/-- `Chip(name, chip_type, power, code, element)`. -/
def mkChipE (n t : String) (p : Int) (cd el : String) : Chip :=
  chipPostInit { name := n, chip_type := t, power := p, code := cd, element := el, range_pattern := [] }

/-- The CHIP_DATABASE dictionary of src/combat/chips.py. -/
def CHIP_DATABASE : List (String × Chip) :=
  [ ("Cannon", mkChip "Cannon" "attack" 40 "A"),
    ("HiCannon", mkChip "HiCannon" "attack" 60 "H"),
    ("M-Cannon", mkChip "M-Cannon" "attack" 80 "M"),
    ("Spreader", mkChip "Spreader" "attack" 30 "M"),
    ("MiniBomb", mkChip "MiniBomb" "attack" 50 "B"),
    ("Sword", mkChip "Sword" "sword" 80 "S"),
    ("WideSword", mkChip "WideSword" "widesword" 80 "W"),
    ("LongSword", mkChip "LongSword" "longsword" 80 "L"),
    ("FireSword", mkChipE "FireSword" "sword" 100 "F" "fire"),
    ("AquaSword", mkChipE "AquaSword" "sword" 100 "A" "aqua"),
    ("Recover10", mkChip "Recover10" "heal" 10 "R"),
    ("Recover30", mkChip "Recover30" "heal" 30 "R"),
    ("Recover50", mkChip "Recover50" "heal" 50 "R"),
    ("Recover80", mkChip "Recover80" "heal" 80 "R"),
    ("Barrier", mkChip "Barrier" "defense" 10 "B"),
    ("Invis", mkChip "Invis" "defense" 0 "I") ]

/-- Dictionary lookup `CHIP_DATABASE[name]` as an Option. -/
def dbGet (n : String) : Option Chip :=
  (CHIP_DATABASE.find? (fun pr => pr.1 == n)).map Prod.snd

/-- The object a *successful* positional `Chip(...)` call would build when
the arguments are arbitrary Python values (the dataclass does not check
argument types, only arity; `range_pattern` is left out because the buggy
call site never reaches `__post_init__`). -/
structure PyChip where
  name : PyVal
  chip_type : PyVal
  power : PyVal
  code : PyVal
  element : PyVal
deriving DecidableEq

/-- Positional argument binding for `Chip(...)`: four required parameters
`(name, chip_type, power, code)`, then optional `element` (default "null")
and `range_pattern`.  Fewer than four positional arguments raises
TypeError, exactly as CPython does for the dataclass `__init__`. -/
def pyChipCall (args : List PyVal) : Except String PyChip :=
  match args with
  | [a, b, c, d] => Except.ok { name := a, chip_type := b, power := c, code := d, element := PyVal.str "null" }
  | [a, b, c, d, e] => Except.ok { name := a, chip_type := b, power := c, code := d, element := e }
  | [a, b, c, d, e, _] => Except.ok { name := a, chip_type := b, power := c, code := d, element := e }
  | _ => Except.error "TypeError: Chip.__init__ wrong number of positional arguments"

/-- The parameter dictionary attached to a chip behavior
(`params` in battle_scene.py); only the keys the battle core reads. -/
structure Params where
  dist : Option Int
  delay : Option Rat
  splash : Option String
  diagonals : Option Bool
  push : Option Int
  speed : Option Rat
  pierce : Option Bool
  duration : Option Rat
deriving DecidableEq

/-- The empty parameter dictionary `{}`. -/
def Params.empty : Params :=
  { dist := none, delay := none, splash := none, diagonals := none,
    push := none, speed := none, pierce := none, duration := none }

/-- The view of a chip the battle scene manipulates at use time:
`getattr(chip, "behavior", None)` and `getattr(chip, "params", {})` of the
underlying object. -/
structure ChipU where
  name : String
  chip_type : String
  power : Int
  range_pattern : List (Int × Int)
  behavior : Option String
  params : Params
deriving DecidableEq

/-- The deferred secondary effect of a projectile: which `on_hit` closure
(if any) the spawning code attached (`_fire_shotgun`, `_fire_spreader`,
`_fire_airshot`). -/
inductive OnHit where
  | none : OnHit
  | shotgun (power : Int) : OnHit
  | spreader (power : Int) (diagonals : Bool) : OnHit
  | airshot (push : Int) : OnHit
deriving DecidableEq

/-- The Projectile class of battle_scene.py (color omitted: rendering only). -/
structure Projectile where
  x : Rat
  y : Rat
  dx : Rat
  dy : Rat
  damage : Int
  from_enemy : Bool
  alive : Bool
  speed : Rat
  pierce : Bool
  onHit : OnHit
  hit_radius : Rat
deriving DecidableEq

/-- The WaveAttack class of src/enemy_sprites.py (sprite-frame fields
omitted: rendering only).  `speed = 8.0`, `hit_radius = 0.6` at creation. -/
structure WaveAttack where
  x : Rat
  y : Rat
  dx : Rat
  damage : Int
  alive : Bool
  speed : Rat
  hit_radius : Rat
deriving DecidableEq

/-- The ImpactEffect class of battle_scene.py (color and the on_impact
hook omitted: the hook is None everywhere in this repository). -/
structure ImpactEffect where
  gx : Int
  gy : Int
  damage : Int
  timer : Rat
  splash : Option String
  alive : Bool
deriving DecidableEq

/-- The Enemy class of battle_scene.py (randomized timers and the sprite
manager omitted: no modelled operation reads them). -/
structure Enemy where
  name : String
  hp : Int
  max_hp : Int
  attack : Int
  defense : Int
  x : Int
  y : Int
  is_boss : Bool
  alive : Bool
deriving DecidableEq

/-- `Enemy.__init__(name, hp, attack, defense, x, y, is_boss)`:
`max_hp = hp`, `alive = True`. -/
def mkEnemy (n : String) (hp atk df : Int) (x y : Int) (boss : Bool) : Enemy :=
  { name := n, hp := hp, max_hp := hp, attack := atk, defense := df,
    x := x, y := y, is_boss := boss, alive := true }

/-- A placeholder enemy for positional `getD` access (every access the
model performs is at an index produced by a search over the same list, so
the default is never read). -/
def dummyEnemy : Enemy := mkEnemy "" 0 0 0 0 0 false

/-- The mutable battle-scene state the modelled operations read and write.
Rendering state, animation timers, and the random re-arm timers are
omitted; persistent `game_state` entries the scene touches (`navi` stats,
`zenny`, owned chips) are inlined as fields. -/
structure BattleState where
  naviX : Int
  naviY : Int
  naviHp : Int
  naviMaxHp : Int
  naviDefense : Int
  naviInvisTimer : Rat
  enemies : List Enemy
  projectiles : List Projectile
  waveAttacks : List WaveAttack
  impactEffects : List ImpactEffect
  customGauge : Rat
  phase : String
  phaseTimer : Rat
  chipQueue : List ChipU
  drawnChips : List ChipU
  selectedChips : List ChipU
  chipCursor : Nat
  zenny : Int
  rewardsZenny : Int
  rewardsChips : List String
  rewardsEquip : Option String
  ownedChips : List PyChip
  battleResult : Option String
deriving DecidableEq

/-- `_navi_hit`: blocked outright while the invis timer is positive;
otherwise damage is floored at 1 after defense and hp is clamped at 0. -/
def naviHit (s : BattleState) (damage : Int) : BattleState :=
  if 0 < s.naviInvisTimer then s
  else
    let actual := max 1 (damage - s.naviDefense)
    { s with naviHp := max 0 (s.naviHp - actual) }

/-- `_enemy_hit`: damage floored at 1 after defense; the enemy dies when
hp drops to 0 or below. -/
def enemyHit (e : Enemy) (damage : Int) : Enemy :=
  let actual := max 1 (damage - e.defense)
  let hp := e.hp - actual
  { e with hp := hp, alive := if hp ≤ 0 then false else e.alive }

/-- The tile list `hit_tiles` built by `_resolve_impact` for a given
splash shape (in source order). -/
def hitTilesOf (imp : ImpactEffect) : List (Int × Int) :=
  [(imp.gx, imp.gy)] ++
    (if imp.splash = some "cross1" then
      [(imp.gx - 1, imp.gy), (imp.gx + 1, imp.gy), (imp.gx, imp.gy - 1), (imp.gx, imp.gy + 1)]
    else if imp.splash = some "cross2" then
      [(imp.gx - 1, imp.gy), (imp.gx + 1, imp.gy), (imp.gx, imp.gy - 1), (imp.gx, imp.gy + 1),
       (imp.gx - 2, imp.gy), (imp.gx + 2, imp.gy), (imp.gx, imp.gy - 2), (imp.gx, imp.gy + 2)]
    else if imp.splash = some "square1" then
      [(imp.gx - 1, imp.gy - 1), (imp.gx - 1, imp.gy), (imp.gx - 1, imp.gy + 1),
       (imp.gx, imp.gy - 1), (imp.gx, imp.gy), (imp.gx, imp.gy + 1),
       (imp.gx + 1, imp.gy - 1), (imp.gx + 1, imp.gy), (imp.gx + 1, imp.gy + 1)]
    else [])

/-- The in-bounds test `0 <= tx < grid_cols and 0 <= ty < grid_rows`. -/
def tileInBounds (t : Int × Int) : Bool :=
  decide (0 ≤ t.1 ∧ t.1 < gridCols ∧ 0 ≤ t.2 ∧ t.2 < gridRows)

/-- One iteration of the inner enemy loop of `_resolve_impact` for a tile. -/
def hitOne (d : Int) (t : Int × Int) (e : Enemy) : Enemy :=
  if e.alive ∧ e.x = t.1 ∧ e.y = t.2 then enemyHit e d else e

/-- `_resolve_impact`: damage every living enemy standing on an in-bounds
tile of the splash footprint (popup and screen shake omitted). -/
def resolveImpact (imp : ImpactEffect) (s : BattleState) : BattleState :=
  let es := ((hitTilesOf imp).filter tileInBounds).foldl (fun es t => es.map (hitOne imp.damage t)) s.enemies
  { s with enemies := es }

/-- The loop body sequence of `_update_impacts`: decrement each timer, and
when a timer has reached zero on a still-alive impact, clear `alive` first
and then resolve it (the on_impact hook is None in this repository). -/
def impactPass (dt : Rat) : List ImpactEffect → BattleState → List ImpactEffect → BattleState × List ImpactEffect
  | [], s, acc => (s, acc)
  | imp :: rest, s, acc =>
    let i1 := { imp with timer := imp.timer - dt }
    if i1.timer ≤ 0 ∧ i1.alive then
      let i2 := { i1 with alive := false }
      impactPass dt rest (resolveImpact i2 s) (acc ++ [i2])
    else impactPass dt rest s (acc ++ [i1])

/-- `_update_impacts`: run the pass, then drop every impact whose `alive`
flag is cleared. -/
def updateImpacts (dt : Rat) (s : BattleState) : BattleState :=
  let r := impactPass dt s.impactEffects s []
  { r.1 with impactEffects := r.2.filter (fun i => i.alive) }

/-- Interpretation of the `on_hit` closures attached by the chip-firing
functions.  `i` is the index of the struck enemy (Python passes the enemy
object itself; the battle scene never aliases one enemy at two list
positions), `hx, hy` mirror the `enemy.x, enemy.y` arguments. -/
def applyOnHit : OnHit → BattleState → Nat → Int → Int → BattleState
  | OnHit.none, s, _, _, _ => s
  | OnHit.shotgun power, s, _, hx, hy =>
    -- _fire_shotgun.on_hit: damage the tile directly behind the target
    { s with enemies := s.enemies.map (hitOne power (hx + 1, hy)) }
  | OnHit.spreader power diagonals, s, _, hx, hy =>
    -- _fire_spreader.on_hit: the column beyond, plus diagonals when enabled
    let targets := [(hx + 1, hy)] ++ (if diagonals then [(hx + 1, hy - 1), (hx + 1, hy + 1)] else [])
    let es := (targets.filter tileInBounds).foldl (fun es t => es.map (hitOne power t)) s.enemies
    { s with enemies := es }
  | OnHit.airshot push, s, i, _, _ =>
    -- _fire_airshot.on_hit: push the struck enemy back, blocked if occupied
    let enemy := s.enemies.getD i dummyEnemy
    let newX := min 5 (enemy.x + push)
    let occupied := s.enemies.enum.any (fun pr =>
      pr.2.alive && decide (pr.1 ≠ i) && decide (pr.2.x = newX) && decide (pr.2.y = enemy.y))
    if occupied then s
    else { s with enemies := s.enemies.set i { enemy with x := max 3 newX } }

/-- The inner `for enemy in self.enemies` search of `_update_projectiles`:
index of the first living enemy inside the box collision radius. -/
def findHitEnemy (px py hr : Rat) : List Enemy → Option Nat
  | [] => Option.none
  | e :: es =>
    if e.alive ∧ |px - (e.x : Rat)| < hr ∧ |py - (e.y : Rat)| < hr then some 0
    else (findHitEnemy px py hr es).map (· + 1)

/-- The `# Enemy projectile hits Navi` block of the `_update_projectiles`
loop body. -/
def projNaviBlock (s : BattleState) (p : Projectile) : BattleState × Projectile :=
  if p.from_enemy ∧ p.alive ∧ |p.x - (s.naviX : Rat)| < p.hit_radius ∧ |p.y - (s.naviY : Rat)| < p.hit_radius then
    (naviHit s p.damage, { p with alive := false })
  else (s, p)

/-- The `# Navi projectile hits enemies` block of the `_update_projectiles`
loop body (first living enemy in the box radius, then `break`). -/
def projEnemyBlock (s : BattleState) (p : Projectile) : BattleState × Projectile :=
  if p.from_enemy = false ∧ p.alive then
    match findHitEnemy p.x p.y p.hit_radius s.enemies with
    | Option.none => (s, p)
    | some i =>
      let e := s.enemies.getD i dummyEnemy
      let s2 := { s with enemies := s.enemies.set i (enemyHit e p.damage) }
      let s3 := applyOnHit p.onHit s2 i e.x e.y
      (s3, if p.pierce then p else { p with alive := false })
  else (s, p)

/-- The two collision blocks of the `_update_projectiles` loop body, run on
an already-moved projectile that passed the bounds check. -/
def projCollide (s : BattleState) (p : Projectile) : BattleState × Projectile :=
  let r1 := projNaviBlock s p
  projEnemyBlock r1.1 r1.2

/-- One iteration of the `_update_projectiles` loop: move, despawn outside
`[-1, cols] x [-1, rows]` (the `continue`), otherwise run the collision
blocks. -/
def processProjectile (dt : Rat) (s : BattleState) (p : Projectile) : BattleState × Projectile :=
  let p1 := { p with x := p.x + p.dx * p.speed * dt, y := p.y + p.dy * p.speed * dt }
  if p1.x < -1 ∨ p1.x > (gridCols : Rat) ∨ p1.y < -1 ∨ p1.y > (gridRows : Rat) then
    (s, { p1 with alive := false })
  else projCollide s p1

/-- The full iteration sequence of `_update_projectiles` over the list. -/
def projPass (dt : Rat) : List Projectile → BattleState → List Projectile → BattleState × List Projectile
  | [], s, acc => (s, acc)
  | p :: rest, s, acc =>
    let r := processProjectile dt s p
    projPass dt rest r.1 (acc ++ [r.2])

/-- `_update_projectiles`: run the pass, then keep only live projectiles. -/
def updateProjectiles (dt : Rat) (s : BattleState) : BattleState :=
  let r := projPass dt s.projectiles s []
  { r.1 with projectiles := r.2.filter (fun p => p.alive) }

/-- One iteration of the `_update_wave_attacks` loop: `WaveAttack.update`
moves the wave (animation bookkeeping omitted), then the x-bounds check,
then the box collision test against the Navi. -/
def processWave (dt : Rat) (s : BattleState) (w : WaveAttack) : BattleState × WaveAttack :=
  let w1 := { w with x := w.x + w.dx * w.speed * dt }
  if w1.x < -1 ∨ w1.x > (gridCols : Rat) then (s, { w1 with alive := false })
  else if |w1.x - (s.naviX : Rat)| < w1.hit_radius ∧ |w1.y - (s.naviY : Rat)| < w1.hit_radius then
    (naviHit s w1.damage, { w1 with alive := false })
  else (s, w1)

/-- The full iteration sequence of `_update_wave_attacks`. -/
def wavePass (dt : Rat) : List WaveAttack → BattleState → List WaveAttack → BattleState × List WaveAttack
  | [], s, acc => (s, acc)
  | w :: rest, s, acc =>
    let r := processWave dt s w
    wavePass dt rest r.1 (acc ++ [r.2])

/-- `_update_wave_attacks`: run the pass, then keep only live waves. -/
def updateWaveAttacks (dt : Rat) (s : BattleState) : BattleState :=
  let r := wavePass dt s.waveAttacks s []
  { r.1 with waveAttacks := r.2.filter (fun w => w.alive) }

/-- `_infer_behavior_from_name`: keyword rules on the lowercased name. -/
def inferBehaviorFromName (name : String) (params : Params) : String × Params :=
  let n := strLower name
  if pyIn "bomb" n then
    if pyIn "mini" n then
      ("lob", { params with dist := some 3, delay := some (45 / 100 : Rat), splash := some "single" })
    else
      ("lob", { params with dist := some 3, delay := some (1 / 2 : Rat), splash := some "cross1" })
  else if pyIn "spreader" n then ("spreader", { params with diagonals := some true })
  else if pyIn "shotgun" n then ("shotgun", params)
  else if pyIn "airshot" n || pyIn "air shot" n then ("airshot", { params with push := some 1 })
  else ("projectile", params)

/-- `_chip_is_invis`. -/
def chipIsInvis (c : ChipU) : Bool :=
  if c.behavior = some "buff_invis" ∨ c.behavior = some "invis" then true
  else pyIn "invis" (strLower c.name)

/-- `_apply_invis` (damage popup omitted): the timer takes the maximum of
its current value and the chip duration (default 3.0 s). -/
def applyInvis (s : BattleState) (params : Params) : BattleState :=
  let dur := params.duration.getD 3
  { s with naviInvisTimer := max s.naviInvisTimer dur }

/-- `_use_lob_chip` (throw animation omitted): schedule an ImpactEffect at
`(min (cols-1) (navi_x + dist), navi_y)`. -/
def useLobChip (s : BattleState) (power : Int) (params : Params) : BattleState :=
  let dist := params.dist.getD 3
  let delay := params.delay.getD (45 / 100 : Rat)
  let splash := params.splash.getD "single"
  let gx := min (gridCols - 1) (s.naviX + dist)
  let gy := s.naviY
  { s with impactEffects := s.impactEffects ++
      [{ gx := gx, gy := gy, damage := power, timer := delay, splash := some splash, alive := true }] }

/-- `_fire_chip_projectile`. -/
def fireChipProjectile (s : BattleState) (power : Int) (params : Params) : BattleState :=
  { s with projectiles := s.projectiles ++
      [{ x := (s.naviX : Rat) + 1 / 2, y := (s.naviY : Rat), dx := 1, dy := 0,
         damage := power, from_enemy := false, alive := true,
         speed := params.speed.getD 6, pierce := params.pierce.getD false,
         onHit := OnHit.none, hit_radius := (3 / 5 : Rat) }] }

/-- `_fire_shotgun`. -/
def fireShotgun (s : BattleState) (power : Int) (params : Params) : BattleState :=
  { s with projectiles := s.projectiles ++
      [{ x := (s.naviX : Rat) + 1 / 2, y := (s.naviY : Rat), dx := 1, dy := 0,
         damage := power, from_enemy := false, alive := true,
         speed := params.speed.getD (13 / 2 : Rat), pierce := false,
         onHit := OnHit.shotgun power, hit_radius := (3 / 5 : Rat) }] }

/-- `_fire_spreader`. -/
def fireSpreader (s : BattleState) (power : Int) (params : Params) : BattleState :=
  let diagonals := params.diagonals.getD true
  { s with projectiles := s.projectiles ++
      [{ x := (s.naviX : Rat) + 1 / 2, y := (s.naviY : Rat), dx := 1, dy := 0,
         damage := power, from_enemy := false, alive := true,
         speed := params.speed.getD 6, pierce := false,
         onHit := OnHit.spreader power diagonals, hit_radius := (3 / 5 : Rat) }] }

/-- `_fire_airshot`. -/
def fireAirshot (s : BattleState) (power : Int) (params : Params) : BattleState :=
  let push := params.push.getD 1
  { s with projectiles := s.projectiles ++
      [{ x := (s.naviX : Rat) + 1 / 2, y := (s.naviY : Rat), dx := 1, dy := 0,
         damage := power, from_enemy := false, alive := true,
         speed := params.speed.getD 7, pierce := false,
         onHit := OnHit.airshot push, hit_radius := (3 / 5 : Rat) }] }

/-- `_use_sword` (slash visual and color selection omitted): damage living
enemies on the in-bounds tiles of the chip's range pattern. -/
def useSword (s : BattleState) (c : ChipU) : BattleState :=
  let es := c.range_pattern.foldl (fun es off =>
    let t := (s.naviX + off.1, s.naviY + off.2)
    if tileInBounds t then es.map (hitOne c.power t) else es) s.enemies
  { s with enemies := es }

/-- `_use_chip`: the behavior dispatch (heal, invis, sword family, attack
with explicit-or-inferred behavior; any other category is a no-op). -/
def useChip (s : BattleState) (c : ChipU) : BattleState :=
  if c.chip_type = "heal" then
    { s with naviHp := min s.naviMaxHp (s.naviHp + c.power) }
  else if chipIsInvis c then applyInvis s c.params
  else if c.chip_type = "sword" ∨ c.chip_type = "widesword" ∨ c.chip_type = "longsword" then
    useSword s c
  else if c.chip_type = "attack" then
    let bp := match c.behavior with
      | some b => (b, c.params)
      | Option.none => inferBehaviorFromName c.name c.params
    if bp.1 = "lob" then useLobChip s c.power bp.2
    else if bp.1 = "spreader" then fireSpreader s c.power bp.2
    else if bp.1 = "shotgun" then fireShotgun s c.power bp.2
    else if bp.1 = "airshot" then fireAirshot s c.power bp.2
    else fireChipProjectile s c.power bp.2
  else s

/-- `_open_custom_screen`: the hand dealt by `random.sample(folder, 5)`
(or the whole folder copied, when it holds fewer than 5 chips) enters as
the `sample` argument. -/
def openCustomScreen (s : BattleState) (sample : List ChipU) : BattleState :=
  let s1 := { s with phase := "custom", customGauge := 0,
                     drawnChips := sample, selectedChips := [], chipCursor := 0 }
  if s1.drawnChips.isEmpty then { s1 with phase := "battle" } else s1

/-- `_close_custom_screen`: the selection becomes the new chip queue. -/
def closeCustomScreen (s : BattleState) : BattleState :=
  { s with chipQueue := s.selectedChips, selectedChips := [], phase := "battle" }

/-- `sum(20 + e.max_hp for e in self.enemies)` in `_win`. -/
def winBaseZenny (s : BattleState) : Int :=
  (s.enemies.map (fun e => 20 + e.max_hp)).sum

/-- The chip-drop loop of `_win`.  `drops` carries the result of
`roll_chip_drop(enemy.name)` for each enemy.  For a successful drop the
name is recorded in the rewards and the code then evaluates
`Chip(dropped, CHIP_DATABASE[dropped].power, CHIP_DATABASE[dropped].chip_type)`:
a three-argument positional call, modelled by `pyChipCall`.  The second
component reports the Python exception that escapes, if any. -/
def winChipLoop : List (Option String) → BattleState → BattleState × Option String
  | [], s => (s, Option.none)
  | Option.none :: rest, s => winChipLoop rest s
  | some d :: rest, s =>
    let s1 := { s with rewardsChips := s.rewardsChips ++ [d] }
    match dbGet d with
    | Option.none => (s1, some "KeyError")
    | some c =>
      match pyChipCall [PyVal.str d, PyVal.int c.power, PyVal.str c.chip_type] with
      | Except.error e => (s1, some e)
      | Except.ok pc => winChipLoop rest { s1 with ownedChips := s1.ownedChips ++ [pc] }

/-- The opening mutations of `_win`: phase and timer set, the zenny reward
computed, stored in the rewards record and added to persistent zenny. -/
def winPrefix (s : BattleState) : BattleState :=
  { s with phase := "win", phaseTimer := (5 / 2 : Rat),
           rewardsZenny := winBaseZenny s, rewardsChips := [], rewardsEquip := Option.none,
           zenny := s.zenny + winBaseZenny s }

/-- `_win`: the prefix mutations, then the chip-drop loop, then the
whole-battle equipment roll (its result enters as `equipDrop`).  The
second component reports an escaping exception; the first holds the state
with every mutation performed before that point. -/
def winStep (s : BattleState) (drops : List (Option String)) (equipDrop : Option String) : BattleState × Option String :=
  match winChipLoop drops (winPrefix s) with
  | (s2, some err) => (s2, some err)
  | (s2, Option.none) =>
    let s3 := match equipDrop with
      | some eqd => { s2 with rewardsEquip := some eqd }
      | Option.none => s2
    ({ s3 with battleResult := some "win" }, Option.none)

/-- The `elif self.phase in ["win", "lose"]` branch of `update`: only the
phase timer is decremented. -/
def updateWinLosePhase (dt : Rat) (s : BattleState) : BattleState :=
  { s with phaseTimer := s.phaseTimer - dt }

/-- The `hp_pct = enemy.hp / enemy.max_hp` computation of `_draw_enemy`
(battle_scene.py line 900): the source performs the division with no
guard, so `pyDiv` surfaces ZeroDivisionError when `max_hp = 0`. -/
def drawEnemyHpPct (e : Enemy) : Except String Rat :=
  pyDiv (e.hp : Rat) (e.max_hp : Rat)

/-- The Navi entries of `game_state["navi"]` that
`_apply_equipment_bonuses` reads and writes. -/
structure NaviStats where
  hp : Int
  max_hp : Int
  buster_attack : Int
  defense : Int
  buster_speed : Rat
  buster_charge : Rat
deriving DecidableEq

/-- The stat-bonus dictionary returned by `Equipment.get_stat_bonuses`
(a key is absent when no equipped item grants that stat). -/
structure Bonuses where
  attack : Option Int
  max_hp : Option Int
  defense : Option Int
  buster_speed : Option Rat
  charge_speed : Option Rat
deriving DecidableEq

/-- `_apply_equipment_bonuses`; `b = none` models an absent/empty
`game_state["equipment"]` (the early return).  The hp rescale division is
performed through `pyDiv` inside the source's `old_max > 0` guard. -/
def applyEquipmentBonusesE (navi : NaviStats) (b : Option Bonuses) : Except String NaviStats :=
  match b with
  | Option.none => Except.ok navi
  | some bon =>
    let n1 := match bon.attack with
      | some a => { navi with buster_attack := 1 + a }
      | Option.none => navi
    let step2 : Except String NaviStats :=
      match bon.max_hp with
      | some m =>
        let oldMax := n1.max_hp
        let n2 := { n1 with max_hp := 100 + m }
        if oldMax > 0 then
          match pyDiv (n2.hp : Rat) (oldMax : Rat) with
          | Except.error e => Except.error e
          | Except.ok pct => Except.ok { n2 with hp := pyInt ((n2.max_hp : Rat) * pct) }
        else Except.ok n2
      | Option.none => Except.ok n1
    match step2 with
    | Except.error e => Except.error e
    | Except.ok n3 =>
      let n4 := match bon.defense with
        | some d => { n3 with defense := 5 + d }
        | Option.none => n3
      let n5 := match bon.buster_speed with
        | some v => { n4 with buster_speed := v }
        | Option.none => n4
      let n6 := match bon.charge_speed with
        | some v => { n5 with buster_charge := v }
        | Option.none => n5
      Except.ok n6

/-- Base battle state used to build concrete witness states. -/
def s0 : BattleState :=
  { naviX := 1, naviY := 1, naviHp := 100, naviMaxHp := 100, naviDefense := 5,
    naviInvisTimer := 0, enemies := [], projectiles := [], waveAttacks := [],
    impactEffects := [], customGauge := 0, phase := "battle", phaseTimer := 0,
    chipQueue := [], drawnChips := [], selectedChips := [], chipCursor := 0,
    zenny := 0, rewardsZenny := 0, rewardsChips := [], rewardsEquip := Option.none,
    ownedChips := [], battleResult := Option.none }

/-- The use-time view of the database chip `Invis`. -/
def invisChipU : ChipU :=
  { name := "Invis", chip_type := "defense", power := 0, range_pattern := [],
    behavior := Option.none, params := Params.empty }

/-- A use-time view of a plain chip named "Bomb" with no explicit behavior. -/
def bombChipU : ChipU :=
  { name := "Bomb", chip_type := "attack", power := 40, range_pattern := [],
    behavior := Option.none, params := Params.empty }

/-- A defeated Metaur with max_hp 40. -/
def deadMetaur40 : Enemy := { mkEnemy "Metaur" 40 10 2 4 0 false with alive := false }

/-- A defeated Metaur with max_hp 50. -/
def deadMetaur50 : Enemy := { mkEnemy "Metaur" 50 12 1 5 1 false with alive := false }

/-- Concrete won battle state: two defeated enemies, 100 persistent zenny. -/
def s940 : BattleState := { s0 with enemies := [deadMetaur40, deadMetaur50], zenny := 100 }

/-- Concrete won battle state with one defeated enemy, for the drop path. -/
def sWin4 : BattleState := { s0 with enemies := [deadMetaur40] }

/-- Battle state with the player at 1 hp and 0 defense. -/
def sClamp : BattleState := { s0 with naviHp := 1, naviDefense := 0 }

/-- The hp=40, defense=2 Metaur of the end-to-end scenario. -/
def metaur40 : Enemy := mkEnemy "Metaur" 40 10 2 4 1 false

/-- Bool view of whether an Except computation succeeded. -/
def isOkB {α : Type} : Except String α → Bool
  | Except.ok _ => true
  | Except.error _ => false

/-- A cross1 impact at (3,1) whose timer has elapsed. -/
def impCross : ImpactEffect :=
  { gx := 3, gy := 1, damage := 30, timer := 0, splash := some "cross1", alive := true }

/-- Battle state with enemies at (4,1) and (5,1). -/
def sC1res : BattleState :=
  { s0 with enemies := [mkEnemy "Metaur" 40 10 2 4 1 false, mkEnemy "Metaur" 35 15 0 5 1 false] }

/-- An impact whose alive flag is already cleared. -/
def impDead : ImpactEffect :=
  { gx := 2, gy := 0, damage := 10, timer := 0, splash := Option.none, alive := false }

/-- Battle state holding only the dead impact. -/
def sC1dead : BattleState := { s0 with impactEffects := [impDead] }

/-- An impact whose timer has not yet elapsed. -/
def impSlow : ImpactEffect :=
  { gx := 2, gy := 0, damage := 10, timer := 5, splash := Option.none, alive := true }

/-- Battle state holding only the slow impact. -/
def sC1slow : BattleState := { s0 with impactEffects := [impSlow] }

/-- Concrete invulnerable state for the C6 witness: a wave and an enemy
projectile both overlapping the player, who has 2 s of invis left. -/
def sC6 : BattleState :=
  { s0 with naviInvisTimer := 2,
            projectiles := [{ x := 1, y := 1, dx := -1, dy := 0, damage := 10, from_enemy := true,
                              alive := true, speed := 7 / 2, pierce := false, onHit := OnHit.none,
                              hit_radius := 3 / 5 }],
            waveAttacks := [{ x := 1, y := 1, dx := -1, damage := 10, alive := true,
                              speed := 8, hit_radius := 3 / 5 }],
            enemies := [mkEnemy "Metaur" 40 10 2 4 1 false] }

/-- A player-side projectile at (0,0) used by the C10 witness. -/
def pjW : Projectile :=
  { x := 0, y := 0, dx := 1, dy := 0, damage := 1, from_enemy := false, alive := true,
    speed := 4, pierce := false, onHit := OnHit.none, hit_radius := 3 / 5 }

/-- Battle state holding only that projectile (and no enemies). -/
def sC10 : BattleState := { s0 with projectiles := [pjW] }

/-- The projectile after one 0.1 s pass: moved to (2/5, 0), still alive. -/
def pjWmoved : Projectile := { pjW with x := 2 / 5, y := 0 }

theorem enemyHit_x (e : Enemy) (d : Int) : (enemyHit e d).x = e.x := rfl

theorem enemyHit_y (e : Enemy) (d : Int) : (enemyHit e d).y = e.y := rfl

theorem listMapExt {α β : Type} (f g : α → β) (l : List α) (h : ∀ a, f a = g a) :
    l.map f = l.map g := by
  induction l with
  | nil => rfl
  | cons a t ih => simp only [List.map_cons, h a, ih]

/-- C7: applying an invis chip sets the player's invulnerability timer to
the maximum of its current value and the chip's duration (3.0 s default,
the explicit `duration` parameter when present), never to their sum; when
the remaining timer already meets the chip's duration, the state is
unchanged; and the chip-use dispatcher routes every non-heal invis chip to
`_apply_invis`. -/
theorem c7_invis_duration_max :
    (∀ (s : BattleState) (pm : Params),
      (applyInvis s pm).naviInvisTimer = max s.naviInvisTimer (pm.duration.getD 3)) ∧
    (∀ (s : BattleState) (pm : Params),
      pm.duration.getD 3 ≤ s.naviInvisTimer → applyInvis s pm = s) ∧
    (∀ (s : BattleState) (c : ChipU),
      ¬ c.chip_type = "heal" → chipIsInvis c = true → useChip s c = applyInvis s c.params) := by
  refine ⟨fun s pm => rfl, fun s pm h => ?_, fun s c h1 h2 => ?_⟩
  · show ({ s with naviInvisTimer := max s.naviInvisTimer (pm.duration.getD 3) } : BattleState) = s
    rw [max_eq_left h]
  · unfold useChip
    rw [if_neg h1, if_pos h2]

/-- Witness for C7 at a concrete state whose timer (5 s) already exceeds
the default duration (3 s), and at the database `Invis` chip. -/
theorem c7_witness :
    applyInvis { s0 with naviInvisTimer := 5 } Params.empty = { s0 with naviInvisTimer := 5 } ∧
    useChip { s0 with naviInvisTimer := 5 } invisChipU =
      applyInvis { s0 with naviInvisTimer := 5 } invisChipU.params :=
  ⟨c7_invis_duration_max.2.1 _ _ (by decide),
   c7_invis_duration_max.2.2 _ _ (by decide) (by decide)⟩

theorem openCustomScreen_selected (s : BattleState) (sample : List ChipU) :
    (openCustomScreen s sample).selectedChips = [] := by
  simp only [openCustomScreen]
  split <;> rfl

theorem openCustomScreen_gauge (s : BattleState) (sample : List ChipU) :
    (openCustomScreen s sample).customGauge = 0 := by
  simp only [openCustomScreen]
  split <;> rfl

/-- C8: from the battle phase with a full custom gauge, opening the custom
screen and then confirming with zero chips selected empties the chip
queue (replacing any prior unconsumed queue), returns the phase to battle,
and leaves the custom gauge at 0. -/
theorem c8_custom_roundtrip (s : BattleState) (sample : List ChipU)
    (hph : s.phase = "battle") (hg : s.customGauge = customGaugeMax) :
    (closeCustomScreen (openCustomScreen s sample)).chipQueue = [] ∧
    (closeCustomScreen (openCustomScreen s sample)).phase = "battle" ∧
    (closeCustomScreen (openCustomScreen s sample)).customGauge = 0 :=
  ⟨openCustomScreen_selected s sample, rfl, openCustomScreen_gauge s sample⟩

/-- Witness for C8 at a concrete full-gauge battle state carrying a stale
queue, with a one-chip hand. -/
theorem c8_witness :
    (closeCustomScreen (openCustomScreen { s0 with customGauge := 15, chipQueue := [bombChipU] } [invisChipU])).chipQueue = [] ∧
    (closeCustomScreen (openCustomScreen { s0 with customGauge := 15, chipQueue := [bombChipU] } [invisChipU])).phase = "battle" ∧
    (closeCustomScreen (openCustomScreen { s0 with customGauge := 15, chipQueue := [bombChipU] } [invisChipU])).customGauge = 0 :=
  c8_custom_roundtrip _ _ (by decide) (by decide)

theorem winChipLoop_fields (drops : List (Option String)) :
    ∀ s : BattleState,
      (winChipLoop drops s).1.zenny = s.zenny ∧
      (winChipLoop drops s).1.rewardsZenny = s.rewardsZenny ∧
      (winChipLoop drops s).1.phase = s.phase := by
  induction drops with
  | nil => intro s; exact ⟨rfl, rfl, rfl⟩
  | cons h rest ih =>
    intro s
    cases h with
    | none => simpa only [winChipLoop] using ih s
    | some d =>
      simp only [winChipLoop]
      cases hdb : dbGet d with
      | none => exact ⟨rfl, rfl, rfl⟩
      | some c =>
        simp only [pyChipCall]
        exact ⟨trivial, trivial, trivial⟩

theorem winChipLoop_err (drops : List (Option String)) :
    ∀ s : BattleState, (winChipLoop drops s).2.isSome = drops.any Option.isSome := by
  induction drops with
  | nil => intro s; rfl
  | cons h rest ih =>
    intro s
    cases h with
    | none => simpa only [winChipLoop, List.any_cons, Option.isSome] using ih s
    | some d =>
      cases hdb : dbGet d with
      | none => simp [winChipLoop, hdb]
      | some c => simp [winChipLoop, hdb, pyChipCall]

theorem winStep_fst_fields (s : BattleState) (drops : List (Option String)) (ed : Option String) :
    (winStep s drops ed).1.zenny = s.zenny + winBaseZenny s ∧
    (winStep s drops ed).1.rewardsZenny = winBaseZenny s ∧
    (winStep s drops ed).1.phase = "win" := by
  have H := winChipLoop_fields drops (winPrefix s)
  unfold winStep
  rcases hwl : winChipLoop drops (winPrefix s) with ⟨s2, err⟩
  rw [hwl] at H
  cases err with
  | none =>
    cases ed <;>
      exact ⟨H.1, H.2.1, H.2.2⟩
  | some e => exact ⟨H.1, H.2.1, H.2.2⟩

theorem winStep_snd (s : BattleState) (drops : List (Option String)) (ed : Option String) :
    (winStep s drops ed).2.isSome = drops.any Option.isSome := by
  have H := winChipLoop_err drops (winPrefix s)
  unfold winStep
  rcases hwl : winChipLoop drops (winPrefix s) with ⟨s2, err⟩
  rw [hwl] at H
  cases err with
  | none => cases ed <;> exact H
  | some e => exact H

/-- C9: on entering the win phase the zenny reward equals the sum over the
defeated enemies of `20 + max_hp`, stored in the rewards record and added
to persistent zenny; and a win-phase update tick only decrements the phase
timer, so the reward is not applied a second time. -/
theorem c9_win_zenny_sum (s : BattleState) (drops : List (Option String)) (ed : Option String)
    (hdead : ∀ e ∈ s.enemies, e.alive = false) :
    (winStep s drops ed).1.rewardsZenny =
      ((s.enemies.filter (fun e => !e.alive)).map (fun e => 20 + e.max_hp)).sum ∧
    (winStep s drops ed).1.zenny =
      s.zenny + ((s.enemies.filter (fun e => !e.alive)).map (fun e => 20 + e.max_hp)).sum ∧
    (winStep s drops ed).1.phase = "win" ∧
    (∀ (dt : Rat) (s2 : BattleState),
      (updateWinLosePhase dt s2).zenny = s2.zenny ∧
      (updateWinLosePhase dt s2).rewardsZenny = s2.rewardsZenny) := by
  have hfe : s.enemies.filter (fun e => !e.alive) = s.enemies :=
    List.filter_eq_self.mpr (fun a ha => by rw [hdead a ha]; rfl)
  obtain ⟨h1, h2, h3⟩ := winStep_fst_fields s drops ed
  refine ⟨?_, ?_, h3, fun dt s2 => ⟨rfl, rfl⟩⟩
  · rw [hfe]; exact h2
  · rw [hfe]; exact h1

/-- Witness for C9: two defeated enemies with max_hp 40 and 50 yield a
reward of exactly 130 zenny, added once to the persistent 100. -/
theorem c9_witness :
    (winStep s940 [Option.none, Option.none] Option.none).1.rewardsZenny = 130 ∧
    (winStep s940 [Option.none, Option.none] Option.none).1.zenny = 230 := by
  have h := c9_win_zenny_sum s940 [Option.none, Option.none] Option.none (by decide)
  exact ⟨h.1.trans (by decide), h.2.1.trans (by decide)⟩

/-- C4 (refuting the spec reading, exhibiting the code bug): whenever any
enemy's chip-drop roll succeeds, the `_win` reward construction
`Chip(dropped, CHIP_DATABASE[dropped].power, CHIP_DATABASE[dropped].chip_type)`
binds only 3 positional arguments against the 4 required dataclass
parameters, so a TypeError escapes and no chip object is appended to the
owned chips, contradicting the claim that the win path never raises. -/
theorem c4_win_chip_drop_raises :
    (∀ (s : BattleState) (drops : List (Option String)) (ed : Option String),
      (winStep s drops ed).2.isSome = drops.any Option.isSome) ∧
    (winStep sWin4 [some "Cannon"] Option.none).2 =
      some "TypeError: Chip.__init__ wrong number of positional arguments" ∧
    (winStep sWin4 [some "Cannon"] Option.none).1.ownedChips = [] ∧
    (winStep sWin4 [some "Cannon"] Option.none).1.rewardsChips = ["Cannon"] :=
  ⟨winStep_snd, by decide, by decide, by decide⟩

/-- C2 counterexample: a hit of raw damage 5 on a 1-hp, 0-defense player
reduces hp by 1 (clamped at 0), not by max(1, 5-0) = 5, so the hp
reduction applied is not always exactly max(1, raw - defense). -/
theorem c2_reduction_claim_cex :
    ¬ (sClamp.naviHp - (naviHit sClamp 5).naviHp = max 1 (5 - sClamp.naviDefense)) := by
  decide

/-- C2 amended: an enemy hit always reduces enemy hp by exactly
max(1, raw - defense); a non-blocked player hit reduces player hp by
min(max(1, raw - defense), hp) because hp is clamped at 0; and the hp=40,
defense=2 enemy struck by damage-1 buster hits is alive after every number
of hits below 40 and not alive after the 40th. -/
theorem c2_damage_floor_amended :
    (∀ (e : Enemy) (d : Int), e.hp - (enemyHit e d).hp = max 1 (d - e.defense)) ∧
    (∀ (s : BattleState) (d : Int), s.naviInvisTimer ≤ 0 →
      s.naviHp - (naviHit s d).naviHp = min (max 1 (d - s.naviDefense)) s.naviHp) ∧
    (∀ n : Nat, n < 40 → ((fun e => enemyHit e 1)^[n] metaur40).alive = true) ∧
    ((fun e => enemyHit e 1)^[40] metaur40).alive = false := by
  refine ⟨fun e d => ?_, fun s d h => ?_, by decide, by decide⟩
  · show e.hp - (e.hp - max 1 (d - e.defense)) = max 1 (d - e.defense)
    omega
  · unfold naviHit
    rw [if_neg (not_lt.mpr h)]
    show s.naviHp - max 0 (s.naviHp - max 1 (d - s.naviDefense)) = _
    omega

/-- Witness for C2's amended statement at a concrete state and hit count. -/
theorem c2_witness :
    sClamp.naviHp - (naviHit sClamp 4).naviHp = min (max 1 (4 - sClamp.naviDefense)) sClamp.naviHp ∧
    ((fun e => enemyHit e 1)^[39] metaur40).alive = true :=
  ⟨c2_damage_floor_amended.2.1 sClamp 4 (by decide),
   c2_damage_floor_amended.2.2.1 39 (by decide)⟩

/-- C3 counterexample: the non-mini chip named "Bomb" with no explicit
behavior lobs an impact with delay 0.5 s, not the claimed 0.45 s. -/
theorem c3_bomb_delay_cex :
    (useChip s0 bombChipU).impactEffects.map (fun i => i.timer) = [(1 / 2 : Rat)] ∧
    (1 / 2 : Rat) ≠ (45 / 100 : Rat) :=
  ⟨rfl, by norm_num⟩

/-- C3 amended: every attack chip name containing "bomb"
(case-insensitive) infers the lob behavior with travel distance 3, landing
at column min(cols-1, navi_x+3) on the player's row; the delay is 0.45 s
and the splash single-tile when the name also contains "mini", and 0.5 s
with a cross-of-range-1 splash otherwise. -/
theorem c3_bomb_lob_amended (name : String) (pm : Params) (s : BattleState) (power : Int)
    (hb : pyIn "bomb" (strLower name) = true) :
    (inferBehaviorFromName name pm).1 = "lob" ∧
    useLobChip s power (inferBehaviorFromName name pm).2 =
      { s with impactEffects := s.impactEffects ++
          [{ gx := min (gridCols - 1) (s.naviX + 3), gy := s.naviY, damage := power,
             timer := if pyIn "mini" (strLower name) then (45 / 100 : Rat) else (1 / 2 : Rat),
             splash := some (if pyIn "mini" (strLower name) then "single" else "cross1"),
             alive := true }] } := by
  by_cases hm : pyIn "mini" (strLower name) = true
  · simp [inferBehaviorFromName, hb, hm, useLobChip]
  · simp [inferBehaviorFromName, hb, hm, useLobChip]

/-- Witness for C3 at the database chip name "MiniBomb". -/
theorem c3_witness :
    (inferBehaviorFromName "MiniBomb" Params.empty).1 = "lob" ∧
    useLobChip s0 50 (inferBehaviorFromName "MiniBomb" Params.empty).2 =
      { s0 with impactEffects := s0.impactEffects ++
          [{ gx := min (gridCols - 1) (s0.naviX + 3), gy := s0.naviY, damage := 50,
             timer := if pyIn "mini" (strLower "MiniBomb") then (45 / 100 : Rat) else (1 / 2 : Rat),
             splash := some (if pyIn "mini" (strLower "MiniBomb") then "single" else "cross1"),
             alive := true }] } :=
  c3_bomb_lob_amended "MiniBomb" Params.empty s0 50 (by decide)

theorem pyDiv_pos_ok (a : Rat) (n : Int) (h : 0 < n) :
    pyDiv a (n : Rat) = Except.ok (a / (n : Rat)) := by
  unfold pyDiv
  rw [if_neg (Int.cast_ne_zero.mpr (by omega : n ≠ 0))]

/-- C5 (refuting the claim, exhibiting the code bug): the proportional hp
rescale of `_apply_equipment_bonuses` is guarded (`old_max > 0`) and can
never divide by zero, but the enemy hp-bar percentage of `_draw_enemy` is
computed with no guard: it divides by zero exactly when the enemy's
max_hp is 0, e.g. for an enemy spawned with hp 0. -/
theorem c5_maxhp_division_guard :
    (∀ e : Enemy, drawEnemyHpPct e =
      (if e.max_hp = 0 then Except.error "ZeroDivisionError"
       else Except.ok ((e.hp : Rat) / (e.max_hp : Rat)))) ∧
    (drawEnemyHpPct (mkEnemy "Metaur" 0 10 2 4 1 false) = Except.error "ZeroDivisionError") ∧
    (∀ (navi : NaviStats) (b : Option Bonuses), isOkB (applyEquipmentBonusesE navi b) = true) := by
  refine ⟨fun e => ?_, rfl, fun navi b => ?_⟩
  · by_cases h : e.max_hp = 0
    · rw [if_pos h]
      unfold drawEnemyHpPct pyDiv
      rw [if_pos (by exact_mod_cast h)]
    · rw [if_neg h]
      unfold drawEnemyHpPct pyDiv
      rw [if_neg (Int.cast_ne_zero.mpr h)]
  · rcases b with _ | ⟨oa, om, od, obs, ocs⟩
    · rfl
    · simp only [applyEquipmentBonusesE]
      cases om with
      | none => cases oa <;> rfl
      | some m =>
        cases oa with
        | none =>
          split_ifs with hpos
          · rw [pyDiv_pos_ok _ _ (by exact_mod_cast hpos)]
            rfl
          · rfl
        | some a =>
          split_ifs with hpos
          · rw [pyDiv_pos_ok _ _ (by exact_mod_cast hpos)]
            rfl
          · rfl

theorem foldl_map_hitOne (d : Int) (ts : List (Int × Int)) (es : List Enemy) :
    ts.foldl (fun es t => es.map (hitOne d t)) es =
      es.map (fun e => ts.foldl (fun e t => hitOne d t e) e) := by
  induction ts generalizing es with
  | nil => simp
  | cons t ts ih =>
    simp only [List.foldl_cons]
    rw [ih, List.map_map]
    rfl

theorem hitCross31 (d : Int) (e : Enemy) :
    hitOne d (3, 2) (hitOne d (3, 0) (hitOne d (4, 1) (hitOne d (2, 1) (hitOne d (3, 1) e)))) =
      (if e.alive ∧ ((e.x, e.y) = ((3 : Int), (1 : Int)) ∨ (e.x, e.y) = (2, 1) ∨ (e.x, e.y) = (4, 1) ∨
          (e.x, e.y) = (3, 0) ∨ (e.x, e.y) = (3, 2)) then enemyHit e d else e) := by
  by_cases ha : e.alive = true
  · by_cases h1 : e.x = 3 ∧ e.y = 1
    · obtain ⟨hx, hy⟩ := h1
      simp [hitOne, ha, hx, hy, enemyHit_x, enemyHit_y, Prod.mk.injEq]
    · by_cases h2 : e.x = 2 ∧ e.y = 1
      · obtain ⟨hx, hy⟩ := h2
        simp [hitOne, ha, hx, hy, enemyHit_x, enemyHit_y, Prod.mk.injEq]
      · by_cases h3 : e.x = 4 ∧ e.y = 1
        · obtain ⟨hx, hy⟩ := h3
          simp [hitOne, ha, hx, hy, enemyHit_x, enemyHit_y, Prod.mk.injEq]
        · by_cases h4 : e.x = 3 ∧ e.y = 0
          · obtain ⟨hx, hy⟩ := h4
            simp [hitOne, ha, hx, hy, enemyHit_x, enemyHit_y, Prod.mk.injEq]
          · by_cases h5 : e.x = 3 ∧ e.y = 2
            · obtain ⟨hx, hy⟩ := h5
              simp [hitOne, ha, hx, hy, enemyHit_x, enemyHit_y, Prod.mk.injEq]
            · simp [hitOne, ha, h1, h2, h3, h4, h5, Prod.mk.injEq]
  · simp [hitOne, ha]

/-- C1: resolving a cross1 impact centered at tile (3,1) damages exactly
the living enemies standing on (3,1), (2,1), (4,1), (3,0) or (3,2) and no
enemy on any other tile; the impact pass removes every resolved impact (all
surviving impacts have the alive flag set, cleared before resolution); an
impact whose alive flag is already cleared is never resolved again, only
removed; and a pass over an empty impact list is the identity. -/
theorem c1_cross1_splash_resolves_once :
    (∀ (s : BattleState) (d : Int) (tm : Rat) (al : Bool),
      (resolveImpact { gx := 3, gy := 1, damage := d, timer := tm, splash := some "cross1", alive := al } s).enemies =
        s.enemies.map (fun e =>
          if e.alive ∧ ((e.x, e.y) = ((3 : Int), (1 : Int)) ∨ (e.x, e.y) = (2, 1) ∨ (e.x, e.y) = (4, 1) ∨
              (e.x, e.y) = (3, 0) ∨ (e.x, e.y) = (3, 2)) then enemyHit e d else e)) ∧
    (∀ (dt : Rat) (s : BattleState) (imp : ImpactEffect),
      imp ∈ (updateImpacts dt s).impactEffects → imp.alive = true) ∧
    (∀ (dt : Rat) (s : BattleState) (imp : ImpactEffect),
      s.impactEffects = [imp] → imp.alive = false →
      updateImpacts dt s = { s with impactEffects := [] }) ∧
    (∀ (dt : Rat) (s : BattleState),
      s.impactEffects = [] → updateImpacts dt s = s) := by
  refine ⟨fun s d tm al => ?_, fun dt s imp h => ?_, fun dt s imp himp hal => ?_, fun dt s h => ?_⟩
  · have htiles :
        (hitTilesOf { gx := 3, gy := 1, damage := d, timer := tm, splash := some "cross1", alive := al }).filter tileInBounds =
          [((3 : Int), (1 : Int)), (2, 1), (4, 1), (3, 0), (3, 2)] := rfl
    simp only [resolveImpact, htiles]
    rw [foldl_map_hitOne]
    exact listMapExt _ _ _ (fun e => by
      simp only [List.foldl_cons, List.foldl_nil]
      exact hitCross31 d e)
  · exact (List.mem_filter.mp h).2
  · unfold updateImpacts
    rw [himp]
    simp [impactPass, hal]
  · unfold updateImpacts
    rw [h]
    simp only [impactPass, List.filter_nil]
    rw [← h]

/-- Witness for C1 at concrete states: a cross1 resolution over enemies at
(4,1) and (5,1), a surviving not-yet-elapsed impact, a dead impact being
removed without resolving, and the empty-list pass. -/
theorem c1_witness :
    ((resolveImpact impCross sC1res).enemies = sC1res.enemies.map (fun e =>
      if e.alive ∧ ((e.x, e.y) = ((3 : Int), (1 : Int)) ∨ (e.x, e.y) = (2, 1) ∨ (e.x, e.y) = (4, 1) ∨
          (e.x, e.y) = (3, 0) ∨ (e.x, e.y) = (3, 2)) then enemyHit e 30 else e)) ∧
    ({ impSlow with timer := impSlow.timer - 1 } : ImpactEffect).alive = true ∧
    updateImpacts 1 sC1dead = { sC1dead with impactEffects := [] } ∧
    updateImpacts 1 s0 = s0 :=
  ⟨c1_cross1_splash_resolves_once.1 sC1res 30 0 true,
   c1_cross1_splash_resolves_once.2.1 1 sC1slow _ (by
      show _ ∈ (updateImpacts 1 sC1slow).impactEffects
      simp only [updateImpacts, impactPass, sC1slow, s0, impSlow]
      norm_num),
   c1_cross1_splash_resolves_once.2.2.1 1 sC1dead impDead rfl rfl,
   c1_cross1_splash_resolves_once.2.2.2 1 s0 rfl⟩

theorem naviHit_invis {s : BattleState} (h : 0 < s.naviInvisTimer) (d : Int) :
    naviHit s d = s := by
  unfold naviHit
  rw [if_pos h]

theorem applyOnHit_navi (oh : OnHit) (s : BattleState) (i : Nat) (hx hy : Int) :
    (applyOnHit oh s i hx hy).naviHp = s.naviHp ∧
    (applyOnHit oh s i hx hy).naviInvisTimer = s.naviInvisTimer := by
  cases oh with
  | none => exact ⟨rfl, rfl⟩
  | shotgun p => exact ⟨rfl, rfl⟩
  | spreader p dg => exact ⟨rfl, rfl⟩
  | airshot p =>
    simp only [applyOnHit]
    split <;> exact ⟨rfl, rfl⟩

theorem projEnemyBlock_navi (s : BattleState) (p : Projectile) :
    (projEnemyBlock s p).1.naviHp = s.naviHp ∧
    (projEnemyBlock s p).1.naviInvisTimer = s.naviInvisTimer := by
  simp only [projEnemyBlock]
  split
  · split
    · exact ⟨rfl, rfl⟩
    · exact ⟨(applyOnHit_navi _ _ _ _ _).1, (applyOnHit_navi _ _ _ _ _).2⟩
  · exact ⟨rfl, rfl⟩

theorem projNaviBlock_fst {s : BattleState} (h : 0 < s.naviInvisTimer) (p : Projectile) :
    (projNaviBlock s p).1 = s := by
  unfold projNaviBlock
  split
  · exact naviHit_invis h p.damage
  · rfl

theorem processProjectile_navi {s : BattleState} (h : 0 < s.naviInvisTimer) (dt : Rat) (p : Projectile) :
    (processProjectile dt s p).1.naviHp = s.naviHp ∧
    (processProjectile dt s p).1.naviInvisTimer = s.naviInvisTimer := by
  simp only [processProjectile, projCollide]
  split
  · exact ⟨rfl, rfl⟩
  · rw [projNaviBlock_fst h]
    exact projEnemyBlock_navi s _

theorem projPass_navi (dt : Rat) : ∀ (ps : List Projectile) (s : BattleState) (acc : List Projectile),
    0 < s.naviInvisTimer →
    (projPass dt ps s acc).1.naviHp = s.naviHp ∧
    (projPass dt ps s acc).1.naviInvisTimer = s.naviInvisTimer := by
  intro ps
  induction ps with
  | nil => intro s acc h; exact ⟨rfl, rfl⟩
  | cons p rest ih =>
    intro s acc h
    simp only [projPass]
    obtain ⟨h1, h2⟩ := processProjectile_navi h dt p
    obtain ⟨g1, g2⟩ := ih (processProjectile dt s p).1 (acc ++ [(processProjectile dt s p).2]) (h2 ▸ h)
    exact ⟨g1.trans h1, g2.trans h2⟩

theorem processWave_fst {s : BattleState} (h : 0 < s.naviInvisTimer) (dt : Rat) (w : WaveAttack) :
    (processWave dt s w).1 = s := by
  simp only [processWave]
  split
  · rfl
  · split
    · exact naviHit_invis h _
    · rfl

theorem wavePass_fst (dt : Rat) : ∀ (ws : List WaveAttack) (s : BattleState) (acc : List WaveAttack),
    0 < s.naviInvisTimer → (wavePass dt ws s acc).1 = s := by
  intro ws
  induction ws with
  | nil => intro s acc h; rfl
  | cons w rest ih =>
    intro s acc h
    simp only [wavePass]
    rw [processWave_fst h]
    exact ih s (acc ++ [(processWave dt s w).2]) h

/-- C6: while the player's invulnerability timer is strictly positive,
`_navi_hit` is the identity on the battle state; a projectile update pass
and a wave-attack update pass leave the player's hp and the timer
unchanged; and impact/splash resolution and melee sword resolution never
touch the player's hp at all. -/
theorem c6_invis_blocks_all_hits (s : BattleState) (dt : Rat) (d : Int)
    (imp : ImpactEffect) (c : ChipU) (h : 0 < s.naviInvisTimer) :
    naviHit s d = s ∧
    (updateProjectiles dt s).naviHp = s.naviHp ∧
    (updateProjectiles dt s).naviInvisTimer = s.naviInvisTimer ∧
    (updateWaveAttacks dt s).naviHp = s.naviHp ∧
    (updateWaveAttacks dt s).naviInvisTimer = s.naviInvisTimer ∧
    (resolveImpact imp s).naviHp = s.naviHp ∧
    (resolveImpact imp s).naviInvisTimer = s.naviInvisTimer ∧
    (useSword s c).naviHp = s.naviHp := by
  obtain ⟨hp1, hp2⟩ := projPass_navi dt s.projectiles s [] h
  have hw := wavePass_fst dt s.waveAttacks s [] h
  have e1 : (updateWaveAttacks dt s).naviHp = (wavePass dt s.waveAttacks s []).1.naviHp := rfl
  have e2 : (updateWaveAttacks dt s).naviInvisTimer = (wavePass dt s.waveAttacks s []).1.naviInvisTimer := rfl
  exact ⟨naviHit_invis h d, hp1, hp2,
    e1.trans (congrArg BattleState.naviHp hw), e2.trans (congrArg BattleState.naviInvisTimer hw),
    rfl, rfl, rfl⟩

/-- Witness for C6 at the concrete invulnerable state. -/
theorem c6_witness :
    naviHit sC6 10 = sC6 ∧
    (updateProjectiles (1 / 10) sC6).naviHp = sC6.naviHp ∧
    (updateProjectiles (1 / 10) sC6).naviInvisTimer = sC6.naviInvisTimer ∧
    (updateWaveAttacks (1 / 10) sC6).naviHp = sC6.naviHp ∧
    (updateWaveAttacks (1 / 10) sC6).naviInvisTimer = sC6.naviInvisTimer ∧
    (resolveImpact impCross sC6).naviHp = sC6.naviHp ∧
    (resolveImpact impCross sC6).naviInvisTimer = sC6.naviInvisTimer ∧
    (useSword sC6 bombChipU).naviHp = sC6.naviHp :=
  c6_invis_blocks_all_hits sC6 (1 / 10) 10 impCross bombChipU (by decide)

theorem projNaviBlock_snd_pos (s : BattleState) (p : Projectile) :
    (projNaviBlock s p).2.x = p.x ∧ (projNaviBlock s p).2.y = p.y := by
  unfold projNaviBlock
  split <;> exact ⟨rfl, rfl⟩

theorem projEnemyBlock_snd_pos (s : BattleState) (p : Projectile) :
    (projEnemyBlock s p).2.x = p.x ∧ (projEnemyBlock s p).2.y = p.y := by
  simp only [projEnemyBlock]
  split
  · split
    · exact ⟨rfl, rfl⟩
    · cases hpr : p.pierce <;> simp [hpr]
  · exact ⟨rfl, rfl⟩

theorem projCollide_snd_pos (s : BattleState) (p : Projectile) :
    (projCollide s p).2.x = p.x ∧ (projCollide s p).2.y = p.y := by
  obtain ⟨h1, h2⟩ := projEnemyBlock_snd_pos (projNaviBlock s p).1 (projNaviBlock s p).2
  obtain ⟨g1, g2⟩ := projNaviBlock_snd_pos s p
  exact ⟨h1.trans g1, h2.trans g2⟩

theorem processProjectile_region (dt : Rat) (s : BattleState) (p : Projectile) :
    (processProjectile dt s p).2.alive = true →
      -1 ≤ (processProjectile dt s p).2.x ∧ (processProjectile dt s p).2.x ≤ (gridCols : Rat) ∧
      -1 ≤ (processProjectile dt s p).2.y ∧ (processProjectile dt s p).2.y ≤ (gridRows : Rat) := by
  simp only [processProjectile]
  split
  · intro hal
    exact absurd hal (by simp)
  · next hout =>
    intro _
    push_neg at hout
    obtain ⟨h1, h2, h3, h4⟩ := hout
    obtain ⟨hx, hy⟩ := projCollide_snd_pos s _
    rw [hx, hy]
    exact ⟨h1, h2, h3, h4⟩

theorem projPass_region (dt : Rat) : ∀ (ps : List Projectile) (s : BattleState) (acc : List Projectile),
    (∀ q ∈ acc, q.alive = true →
      -1 ≤ q.x ∧ q.x ≤ (gridCols : Rat) ∧ -1 ≤ q.y ∧ q.y ≤ (gridRows : Rat)) →
    ∀ q ∈ (projPass dt ps s acc).2, q.alive = true →
      -1 ≤ q.x ∧ q.x ≤ (gridCols : Rat) ∧ -1 ≤ q.y ∧ q.y ≤ (gridRows : Rat) := by
  intro ps
  induction ps with
  | nil => intro s acc hacc; exact hacc
  | cons p rest ih =>
    intro s acc hacc
    simp only [projPass]
    apply ih
    intro q hq hal
    rcases List.mem_append.mp hq with hq | hq
    · exact hacc q hq hal
    · rw [List.mem_singleton] at hq
      subst hq
      exact processProjectile_region dt s p hal

/-- C10: after a projectile update pass, every remaining projectile is
alive and has position inside [-1, cols] x [-1, rows]; and any projectile
whose moved position lies outside that region has its alive flag cleared
in that same iteration. -/
theorem c10_projectile_bounds :
    (∀ (dt : Rat) (s : BattleState) (p : Projectile), p ∈ (updateProjectiles dt s).projectiles →
      p.alive = true ∧
      (-1 ≤ p.x ∧ p.x ≤ (gridCols : Rat) ∧ -1 ≤ p.y ∧ p.y ≤ (gridRows : Rat))) ∧
    (∀ (dt : Rat) (s : BattleState) (p : Projectile),
      ¬(-1 ≤ (processProjectile dt s p).2.x ∧ (processProjectile dt s p).2.x ≤ (gridCols : Rat) ∧
        -1 ≤ (processProjectile dt s p).2.y ∧ (processProjectile dt s p).2.y ≤ (gridRows : Rat)) →
      (processProjectile dt s p).2.alive = false) := by
  constructor
  · intro dt s p hp
    have hmem : p ∈ (projPass dt s.projectiles s []).2.filter (fun q => q.alive) := hp
    have h1 := (List.mem_filter.mp hmem).2
    have h2 := (List.mem_filter.mp hmem).1
    exact ⟨h1, projPass_region dt s.projectiles s []
      (fun q hq _ => absurd hq (List.not_mem_nil q)) p h2 h1⟩
  · intro dt s p hreg
    cases hal : (processProjectile dt s p).2.alive with
    | false => rfl
    | true => exact absurd (processProjectile_region dt s p hal) hreg

/-- Witness for C10: the surviving moved projectile is alive and inside
the despawn region. -/
theorem c10_witness :
    pjWmoved.alive = true ∧
    (-1 ≤ pjWmoved.x ∧ pjWmoved.x ≤ (gridCols : Rat) ∧
     -1 ≤ pjWmoved.y ∧ pjWmoved.y ≤ (gridRows : Rat)) :=
  c10_projectile_bounds.1 (1 / 10) sC10 pjWmoved (by
    show pjWmoved ∈ (updateProjectiles (1 / 10) sC10).projectiles
    norm_num [updateProjectiles, projPass, processProjectile, projCollide, projNaviBlock,
      projEnemyBlock, findHitEnemy, sC10, pjW, pjWmoved, s0, gridCols, gridRows])
